import Mathlib

/-!
Verification development for two SDL video backends: the X11 event pump
(`src/video/x11/SDL_x11events.c`) and the MSM framebuffer driver
(`src/video/msmfb/SDL_msmfb_video.c`).  The C code is shallowly embedded:
the pending X event queue is a list, `XNextEvent` pops its head,
`XPeekEvent` reads its head, machine `Uint32` arithmetic is `Nat`
arithmetic taken `% 2^32`, and every external call (ioctl, XSendEvent,
SDL_Send*) is recorded as an element of an output list.
-/

namespace X11

/-- Two to the thirty-second power: the modulus of `Uint32` arithmetic. -/
def U32MOD : Nat := 4294967296

/-- Unsigned 32-bit subtraction `a - b` for `a b < U32MOD`. -/
def u32sub (a b : Nat) : Nat := (a + U32MOD - b % U32MOD) % U32MOD

/-- Reinterpret an unsigned 32-bit value as a signed `int` (two's complement),
as the C cast `(int)(x)` does on the focus deadline comparison. -/
def toInt32 (n : Nat) : Int := if n % U32MOD < 2147483648 then (n % U32MOD : Int) else (n % U32MOD : Int) - (U32MOD : Int)

/-- X event type tags handled by the `switch` in `X11_DispatchEvent`. -/
inductive XEventType
  | enterNotify | leaveNotify | focusIn | focusOut
  | keymapNotify | mappingNotify
  | keyPress | keyRelease
  | unmapNotify | mapNotify | configureNotify
  | clientMessage | expose | motionNotify
  | buttonPress | buttonRelease
  | propertyNotify | selectionRequest | selectionNotify
  | genericOther
  deriving DecidableEq, Repr

/-- A native X event.  C's `XEvent` is a union; here one structure carries the
fields of every arm the dispatcher reads.  Fields that the C code obtains from
external X calls on this event (`XFilterEvent`, `Xutf8LookupString`,
`X11_GetNetWMState`, the `SelectionRequest` property copy) are oracle fields
recording those calls' results. -/
structure XEvent where
  type : XEventType
  window : Nat
  time : Nat
  keycode : Nat
  button : Nat
  /-- crossing / focus detail (`xcrossing.detail`, `xfocus.detail`). -/
  detail : Nat
  /-- crossing mode (`xcrossing.mode`). -/
  mode : Nat
  x : Int
  y : Int
  width : Int
  height : Int
  /-- The `xclient.message_type`. -/
  messageType : Nat
  /-- The `xclient.format`. -/
  format : Nat
  /-- The `xclient.data.l[0]`. -/
  data0 : Nat
  /-- The `xproperty.atom`. -/
  propertyAtom : Nat
  /-- The `xselectionrequest.requestor`. -/
  requestor : Nat
  /-- oracle: result of `XFilterEvent` (input-method filter consumed it). -/
  filtered : Bool
  /-- oracle: committed text produced by `Xutf8LookupString` for a KeyPress. -/
  text : String
  /-- oracle: hidden bit of `X11_GetNetWMState` for a PropertyNotify. -/
  netHidden : Bool
  /-- oracle: whether the `SelectionRequest` property conversion found the
  requested target (`sevent.xselection.target == req->target`). -/
  selnMatch : Bool
  deriving DecidableEq, Repr

/-- The `NotifyGrab` crossing mode. -/
def NotifyGrab : Nat := 1
/-- The `NotifyUngrab` crossing mode. -/
def NotifyUngrab : Nat := 2
/-- The `NotifyInferior` crossing / focus detail. -/
def NotifyInferior : Nat := 2
/-- X11 `Button4` (wheel up on most mice). -/
def Button4 : Nat := 4
/-- X11 `Button5` (wheel down on most mice). -/
def Button5 : Nat := 5
/-- The `SDL_SCANCODE_UNKNOWN`. -/
def SDL_SCANCODE_UNKNOWN : Nat := 0

/-- Kinds of `SDL_SendWindowEvent` notifications the dispatcher produces. -/
inductive WindowEventKind
  | shown | hidden | restored | minimized
  | moved | resized | exposed | close
  deriving DecidableEq, Repr

/-- Canonical SDL events produced through the portable `SDL_Send*` API. -/
inductive SDLEvent
  | keyboardKey (pressed : Bool) (scancode : Nat)
  | keyboardText (text : String)
  | mouseMotion (x y : Int)
  | mouseButton (pressed : Bool) (button : Nat)
  | mouseWheel (ticks : Int)
  | windowEvent (kind : WindowEventKind) (d1 d2 : Int)
  deriving DecidableEq, Repr

/-- Everything observable the dispatcher does: canonical events, focus-state
calls, X requests sent back to the server, and diagnostics. -/
inductive Output
  | sdl (e : SDLEvent)
  | sysWM
  | setMouseFocus (w : Option Nat)
  | setKeyboardFocus (w : Option Nat)
  | setICFocus (engaged : Bool)
  | resetKeyboard
  | updateKeymap
  | unknownKeyDiagnostic (keycode : Nat)
  | sendX (dest : Nat) (ev : XEvent)
  | xsync
  deriving DecidableEq, Repr

/-- The `pending_focus` values (`PENDING_FOCUS_NONE/IN/OUT`). -/
inductive PendingFocusKind
  | PENDING_FOCUS_NONE | PENDING_FOCUS_IN | PENDING_FOCUS_OUT
  deriving DecidableEq, Repr

/-- Per-window driver state (`SDL_WindowData`): native handle, optional input
context, the focus-debounce fields, the last `XConfigureEvent` geometry, and
the window's current hidden flag (read by the PropertyNotify arm). -/
structure WindowData where
  xwindow : Nat
  ic : Bool
  pending_focus : PendingFocusKind
  pending_focus_time : Nat
  last_x : Int
  last_y : Int
  last_width : Int
  last_height : Int
  winHidden : Bool
  deriving DecidableEq, Repr

/-- Driver-global data (`SDL_VideoData`) plus the ambient configuration the C
code reads from globals: interned atoms, the keycode→scancode table, the root
window, whether `SDL_SYSWMEVENT` is enabled, the mouse relative mode, and the
two focus-debounce delay constants `PENDING_FOCUS_IN_TIME` /
`PENDING_FOCUS_OUT_TIME` (their numeric values live in `SDL_x11video.h`,
outside this file; they stay abstract here). -/
structure VideoData where
  WM_PROTOCOLS : Nat
  NET_WM_PING : Nat
  WM_DELETE_WINDOW : Nat
  NET_WM_STATE : Nat
  key_layout : Nat → Nat
  rootWindow : Nat
  syswmEnabled : Bool
  relativeMode : Bool
  pending_focus_in_time : Nat
  pending_focus_out_time : Nat

/-- Mutable state threaded through the pump: the pending native event queue
(the X connection's queue), the single registered window's data, the portable
keyboard focus, and the clipboard `selection_waiting` flag. -/
structure X11State where
  pending : List XEvent
  data : WindowData
  keyboardFocus : Option Nat
  selection_waiting : Bool
  deriving Repr

/-- The `X11_KeyRepeat`: peek the next pending event; it signals a repeat when it
is a KeyPress of the same keycode whose timestamp is within 2 of the
release's, compared by unsigned 32-bit subtraction `peek.time - event.time`. -/
def X11_KeyRepeat (pending : List XEvent) (event : XEvent) : Bool :=
  match pending with
  | [] => false
  | peekevent :: _ =>
      decide (peekevent.type = XEventType.keyPress ∧
              peekevent.keycode = event.keycode ∧
              u32sub peekevent.time event.time < 2)

/-- The `X11_IsWheelEvent`: peek the next pending event; when it is a
ButtonRelease with the same button and the identical timestamp, classify the
press as a wheel tick (`Button4` → +1, `Button5` → −1, anything else leaves
the caller's `ticks = 0` untouched) and drain the release with `XNextEvent`.
Returns (is-wheel, ticks, remaining queue). -/
def X11_IsWheelEvent (pending : List XEvent) (event : XEvent) : Bool × Int × List XEvent :=
  match pending with
  | [] => (false, 0, [])
  | peekevent :: rest =>
      if peekevent.type = XEventType.buttonRelease ∧
         peekevent.button = event.button ∧
         peekevent.time = event.time then
        ((true, if event.button = Button4 then 1
                else if event.button = Button5 then -1 else 0, rest))
      else (false, 0, peekevent :: rest)

/-- The `X11_DispatchFocusIn`: set portable keyboard focus to the window and
engage the input-method focus when an input context exists. -/
def X11_DispatchFocusIn (data : WindowData) : List Output :=
  Output.setKeyboardFocus (some data.xwindow) ::
    (if data.ic then [Output.setICFocus true] else [])

/-- The `X11_DispatchFocusOut`: clear portable keyboard focus and disengage the
input-method focus when an input context exists. -/
def X11_DispatchFocusOut (data : WindowData) : List Output :=
  Output.setKeyboardFocus none ::
    (if data.ic then [Output.setICFocus false] else [])

/-- The `X11_DispatchMapNotify`: shown + restored compound window events. -/
def X11_DispatchMapNotify : List Output :=
  [Output.sdl (SDLEvent.windowEvent WindowEventKind.shown 0 0),
   Output.sdl (SDLEvent.windowEvent WindowEventKind.restored 0 0)]

/-- The `X11_DispatchUnmapNotify`: hidden + minimized compound window events. -/
def X11_DispatchUnmapNotify : List Output :=
  [Output.sdl (SDLEvent.windowEvent WindowEventKind.hidden 0 0),
   Output.sdl (SDLEvent.windowEvent WindowEventKind.minimized 0 0)]

/-- Body of the `switch (xevent.type)` in `X11_DispatchEvent`, after the
event has passed the input-method filter, the optional `SDL_SYSWMEVENT` has
been sent, and the window lookup has succeeded.  Returns the updated state
and the outputs of this arm. -/
def X11_DispatchSwitch (vd : VideoData) (now : Nat) (st : X11State)
    (xevent : XEvent) : X11State × List Output :=
  match xevent.type with
  | XEventType.enterNotify =>
      (st, [Output.setMouseFocus (some st.data.xwindow)])
  | XEventType.leaveNotify =>
      if xevent.mode ≠ NotifyGrab ∧ xevent.mode ≠ NotifyUngrab ∧
         xevent.detail ≠ NotifyInferior then
        (st, [Output.setMouseFocus none])
      else (st, [])
  | XEventType.focusIn =>
      if xevent.detail = NotifyInferior then (st, [])
      else
        let resetOuts :=
          if st.data.pending_focus = PendingFocusKind.PENDING_FOCUS_OUT ∧
             some st.data.xwindow = st.keyboardFocus then
            [Output.resetKeyboard]
          else []
        ({ st with data :=
             { st.data with
                 pending_focus := PendingFocusKind.PENDING_FOCUS_IN,
                 pending_focus_time :=
                   (now + vd.pending_focus_in_time) % U32MOD } },
         resetOuts)
  | XEventType.focusOut =>
      if xevent.detail = NotifyInferior then (st, [])
      else
        ({ st with data :=
             { st.data with
                 pending_focus := PendingFocusKind.PENDING_FOCUS_OUT,
                 pending_focus_time :=
                   (now + vd.pending_focus_out_time) % U32MOD } },
         [])
  | XEventType.keymapNotify => (st, [])
  | XEventType.mappingNotify => (st, [Output.updateKeymap])
  | XEventType.keyPress =>
      let scancode := vd.key_layout xevent.keycode
      let diag :=
        if scancode = SDL_SCANCODE_UNKNOWN then
          [Output.unknownKeyDiagnostic xevent.keycode]
        else []
      let textOuts :=
        if xevent.text ≠ "" then
          [Output.sdl (SDLEvent.keyboardText xevent.text)]
        else []
      (st, Output.sdl (SDLEvent.keyboardKey true scancode) :: diag ++ textOuts)
  | XEventType.keyRelease =>
      if X11_KeyRepeat st.pending xevent then
        (st, [])
      else
        (st, [Output.sdl
                (SDLEvent.keyboardKey false (vd.key_layout xevent.keycode))])
  | XEventType.unmapNotify => (st, X11_DispatchUnmapNotify)
  | XEventType.mapNotify => (st, X11_DispatchMapNotify)
  | XEventType.configureNotify =>
      let movedOuts :=
        if xevent.x ≠ st.data.last_x ∨ xevent.y ≠ st.data.last_y then
          [Output.sdl (SDLEvent.windowEvent WindowEventKind.moved
                         xevent.x xevent.y)]
        else []
      let resizedOuts :=
        if xevent.width ≠ st.data.last_width ∨
           xevent.height ≠ st.data.last_height then
          [Output.sdl (SDLEvent.windowEvent WindowEventKind.resized
                         xevent.width xevent.height)]
        else []
      ({ st with data :=
           { st.data with
               last_x := xevent.x, last_y := xevent.y,
               last_width := xevent.width, last_height := xevent.height } },
       movedOuts ++ resizedOuts)
  | XEventType.clientMessage =>
      if xevent.messageType = vd.WM_PROTOCOLS ∧ xevent.format = 32 ∧
         xevent.data0 = vd.NET_WM_PING then
        (st, [Output.sendX vd.rootWindow
                { xevent with window := vd.rootWindow }])
      else if xevent.messageType = vd.WM_PROTOCOLS ∧ xevent.format = 32 ∧
              xevent.data0 = vd.WM_DELETE_WINDOW then
        (st, [Output.sdl (SDLEvent.windowEvent WindowEventKind.close 0 0)])
      else (st, [])
  | XEventType.expose =>
      (st, [Output.sdl (SDLEvent.windowEvent WindowEventKind.exposed 0 0)])
  | XEventType.motionNotify =>
      if ¬ vd.relativeMode then
        (st, [Output.sdl (SDLEvent.mouseMotion xevent.x xevent.y)])
      else (st, [])
  | XEventType.buttonPress =>
      match X11_IsWheelEvent st.pending xevent with
      | (true, ticks, pending) =>
          ({ st with pending := pending },
           [Output.sdl (SDLEvent.mouseWheel ticks)])
      | (false, _, _) =>
          (st, [Output.sdl (SDLEvent.mouseButton true xevent.button)])
  | XEventType.buttonRelease =>
      (st, [Output.sdl (SDLEvent.mouseButton false xevent.button)])
  | XEventType.propertyNotify =>
      if xevent.propertyAtom = vd.NET_WM_STATE then
        if xevent.netHidden ≠ st.data.winHidden then
          if xevent.netHidden then (st, X11_DispatchUnmapNotify)
          else (st, X11_DispatchMapNotify)
        else (st, [])
      else (st, [])
  | XEventType.selectionRequest =>
      (st, [Output.sendX xevent.requestor
              { xevent with type := XEventType.selectionNotify,
                            selnMatch := xevent.selnMatch },
            Output.xsync])
  | XEventType.selectionNotify =>
      ({ st with selection_waiting := false }, [])
  | XEventType.genericOther => (st, [])

/-- The `X11_DispatchEvent`: pop the next native event (`XNextEvent`); drop it if
the input-method filter consumed it; send the optional `SDL_SYSWMEVENT`; drop
it if no registered window matches its handle; otherwise run the `switch`. -/
def X11_DispatchEvent (vd : VideoData) (now : Nat) (st : X11State) :
    X11State × List Output :=
  match st.pending with
  | [] => (st, [])
  | xevent :: rest =>
      let st1 : X11State := { st with pending := rest }
      if xevent.filtered then (st1, [])
      else
        let wmOuts := if vd.syswmEnabled then [Output.sysWM] else []
        if xevent.window = st1.data.xwindow then
          let (st2, outs) := X11_DispatchSwitch vd now st1 xevent
          (st2, wmOuts ++ outs)
        else (st1, wmOuts)

/-- The `X11_HandleFocusChanges` for the single registered window: when a focus
transition is pending and its deadline has passed (signed comparison of the
unsigned difference `pending_focus_time - now`), dispatch it and clear the
pending state. -/
def X11_HandleFocusChanges (now : Nat) (st : X11State) :
    X11State × List Output :=
  if st.data.pending_focus ≠ PendingFocusKind.PENDING_FOCUS_NONE ∧
     toInt32 (u32sub st.data.pending_focus_time now) ≤ 0 then
    let outs :=
      if st.data.pending_focus = PendingFocusKind.PENDING_FOCUS_IN then
        X11_DispatchFocusIn st.data
      else
        X11_DispatchFocusOut st.data
    let st2 := { st with
      data := { st.data with
                  pending_focus := PendingFocusKind.PENDING_FOCUS_NONE },
      keyboardFocus :=
        if st.data.pending_focus = PendingFocusKind.PENDING_FOCUS_IN then
          some st.data.xwindow
        else none }
    (st2, outs)
  else (st, [])

/-- One step of the pump loop, as claims view it: either dispatch one event
at clock reading `now`, or run the focus-change flush at `now`. -/
inductive PumpOp
  | dispatch (now : Nat)
  | focusCheck (now : Nat)
  deriving DecidableEq, Repr

/-- Execute one pump step. -/
def pumpStep (vd : VideoData) (op : PumpOp) (st : X11State) :
    X11State × List Output :=
  match op with
  | PumpOp.dispatch now => X11_DispatchEvent vd now st
  | PumpOp.focusCheck now => X11_HandleFocusChanges now st

/-- Run a list of pump steps, accumulating all outputs in order. -/
def runOps (vd : VideoData) (ops : List PumpOp) (st : X11State) :
    X11State × List Output :=
  match ops with
  | [] => (st, [])
  | op :: opsRest =>
      ((runOps vd opsRest (pumpStep vd op st).1).1,
       (pumpStep vd op st).2 ++ (runOps vd opsRest (pumpStep vd op st).1).2)

/-- Number of outputs in a list satisfying a predicate. -/
def countOut (p : Output → Bool) (outs : List Output) : Nat :=
  (outs.filter p).length

/-- An output is a mouse-wheel event. -/
def isWheel : Output → Bool
  | Output.sdl (SDLEvent.mouseWheel _) => true
  | _ => false

/-- An output is a mouse-button (down or up) event. -/
def isMouseButton : Output → Bool
  | Output.sdl (SDLEvent.mouseButton _ _) => true
  | _ => false

/-- An output is a canonical key-up event. -/
def isKeyUp : Output → Bool
  | Output.sdl (SDLEvent.keyboardKey false _) => true
  | _ => false

/-- An output is a canonical key-down event. -/
def isKeyDown : Output → Bool
  | Output.sdl (SDLEvent.keyboardKey true _) => true
  | _ => false

/-- An output is a canonical (portable `SDL_Send*`) event. -/
def isCanonical : Output → Bool
  | Output.sdl _ => true
  | _ => false

/-- An output is a focus-out dispatch (`SDL_SetKeyboardFocus(NULL)`). -/
def isFocusOutDispatch : Output → Bool
  | Output.setKeyboardFocus none => true
  | _ => false

/-- An output is a window-moved event. -/
def isMoved : Output → Bool
  | Output.sdl (SDLEvent.windowEvent WindowEventKind.moved _ _) => true
  | _ => false

/-- An output is a window-resized event. -/
def isResized : Output → Bool
  | Output.sdl (SDLEvent.windowEvent WindowEventKind.resized _ _) => true
  | _ => false

theorem countOut_nil (p : Output → Bool) : countOut p [] = 0 := rfl

theorem countOut_append (p : Output → Bool) (a b : List Output) :
    countOut p (a ++ b) = countOut p a + countOut p b := by
  simp [countOut, List.filter_append]

theorem countOut_cons (p : Output → Bool) (o : Output) (b : List Output) :
    countOut p (o :: b) = (if p o then 1 else 0) + countOut p b := by
  by_cases h : p o <;> simp [countOut, List.filter_cons, h, Nat.add_comm]

theorem countOut_singleton (p : Output → Bool) (o : Output) :
    countOut p [o] = if p o then 1 else 0 := by
  rw [countOut_cons, countOut_nil, Nat.add_zero]

end X11

namespace Touch

/-- Linux `ABS_X` event code. -/
def ABS_X : Nat := 0
/-- Linux `ABS_Y` event code. -/
def ABS_Y : Nat := 1
/-- Linux `ABS_PRESSURE` event code. -/
def ABS_PRESSURE : Nat := 24
/-- Linux `ABS_MISC` event code. -/
def ABS_MISC : Nat := 40
/-- Linux `MSC_SERIAL` event code. -/
def MSC_SERIAL : Nat := 0
/-- Linux `BTN_TOUCH` event code. -/
def BTN_TOUCH : Nat := 330

/-- Raw `input_event` type tags handled by the touch loop in
`X11_PumpEvents`. -/
inductive RawType
  | evAbs | evMsc | evKey | evSyn | evOther
  deriving DecidableEq, Repr

/-- A raw `struct input_event` as the touch loop reads it. -/
structure RawEvent where
  type : RawType
  code : Nat
  value : Int
  deriving DecidableEq, Repr

/-- Per-device accumulation state (`EventTouchData`): coordinates, pressure,
finger id, and the `down` / `up` flags. -/
structure EventTouchData where
  x : Int
  y : Int
  pressure : Int
  finger : Int
  down : Bool
  up : Bool
  deriving DecidableEq, Repr

/-- Canonical touch events the loop sends.  The source's finger-up is an
`SDL_SendFingerDown` call with `down = SDL_FALSE`. -/
inductive TouchOut
  | fingerDown (down : Bool) (finger x y pressure : Int)
  | touchMotion (finger x y pressure : Int)
  deriving DecidableEq, Repr

/-- One iteration of the raw touch-event loop in `X11_PumpEvents`: axis and
pressure updates accumulate (negative pressure clamps to zero), `ABS_MISC 0`
and `BTN_TOUCH 0` assert the `up` flag, `MSC_SERIAL` records the finger id,
and `EV_SYN` commits the pending sample: finger-down when `down` was clear,
motion when `down` is set and `up` clear, finger-up (a `fingerDown` with
`down = false`) followed by a full field reset when both are set. -/
def processRawEvent (d : EventTouchData) (ev : RawEvent) :
    EventTouchData × List TouchOut :=
  match ev.type with
  | RawType.evAbs =>
      if ev.code = ABS_X then ({ d with x := ev.value }, [])
      else if ev.code = ABS_Y then ({ d with y := ev.value }, [])
      else if ev.code = ABS_PRESSURE then
        (if ev.value < 0 then { d with pressure := 0 }
         else { d with pressure := ev.value }, [])
      else if ev.code = ABS_MISC then
        (if ev.value = 0 then { d with up := true } else d, [])
      else (d, [])
  | RawType.evMsc =>
      if ev.code = MSC_SERIAL then ({ d with finger := ev.value }, [])
      else (d, [])
  | RawType.evKey =>
      if ev.code = BTN_TOUCH ∧ ev.value = 0 then ({ d with up := true }, [])
      else (d, [])
  | RawType.evSyn =>
      if ¬ d.down then
        ({ d with down := true },
         [TouchOut.fingerDown true d.finger d.x d.y d.pressure])
      else if ¬ d.up then
        (d, [TouchOut.touchMotion d.finger d.x d.y d.pressure])
      else
        (⟨-1, -1, -1, 0, false, false⟩,
         [TouchOut.fingerDown false d.finger d.x d.y d.pressure])
  | RawType.evOther => (d, [])

/-- Run the touch loop over a list of raw events, accumulating outputs. -/
def processRawStream (d : EventTouchData) (evs : List RawEvent) :
    EventTouchData × List TouchOut :=
  match evs with
  | [] => (d, [])
  | ev :: evsRest =>
      ((processRawStream (processRawEvent d ev).1 evsRest).1,
       (processRawEvent d ev).2 ++
         (processRawStream (processRawEvent d ev).1 evsRest).2)

/-- The field-cleared state the source resets to after emitting finger-up. -/
def touchReset : EventTouchData := ⟨-1, -1, -1, 0, false, false⟩

end Touch

namespace MSMFB

/-- Linux `FB_TYPE_PACKED_PIXELS`. -/
def FB_TYPE_PACKED_PIXELS : Nat := 0
/-- Linux `FB_VISUAL_TRUECOLOR`. -/
def FB_VISUAL_TRUECOLOR : Nat := 2
/-- The `SDL_PIXELFORMAT_ABGR8888`, the fixed packed-byte-order pixel format the
driver publishes (numeric value from SDL_pixels.h). -/
def SDL_PIXELFORMAT_ABGR8888 : Nat := 376840196

/-- The slice of `struct fb_var_screeninfo` the driver reads or writes. -/
structure fb_var_screeninfo where
  xres : Nat
  yres : Nat
  xoffset : Nat
  yoffset : Nat
  activate : Nat
  deriving DecidableEq, Repr

/-- The slice of `struct fb_fix_screeninfo` the driver reads. -/
structure fb_fix_screeninfo where
  smem_start : Nat
  smem_len : Nat
  line_length : Nat
  type : Nat
  visual : Nat
  deriving DecidableEq, Repr

/-- An `SDL_DisplayMode` as the driver fills it. -/
structure SDL_DisplayMode where
  format : Nat
  w : Int
  h : Int
  refresh_rate : Nat
  deriving DecidableEq, Repr

/-- Oracle results of the external calls `MSMFB_VideoInit` makes: device
open, the two query ioctls (with the data they return), and
`SDL_AddBasicVideoDisplay`. -/
structure VideoInitEnv where
  openOk : Bool
  getFixOk : Bool
  getVarOk : Bool
  fb_fix : fb_fix_screeninfo
  fb_var : fb_var_screeninfo
  addBasicDisplayOk : Bool
  deriving DecidableEq, Repr

/-- What `MSMFB_VideoInit` returns and publishes: the C return value, the
saved original variable mode info, the display registered through
`SDL_AddBasicVideoDisplay`, and the modes added with `SDL_AddDisplayMode`. -/
structure VideoInitResult where
  ret : Int
  fb_var_orig : Option fb_var_screeninfo
  basicDisplay : Option SDL_DisplayMode
  addedModes : List SDL_DisplayMode
  deriving DecidableEq, Repr

/-- The `MSMFB_VideoInit`: open the device, query fixed and variable info, save
the original variable info, reject non-packed-pixel or non-true-color
layouts with a hard `-1`, then publish a basic display and one display mode,
both sized from the queried variable info at a fixed 60 Hz refresh and the
fixed `SDL_PIXELFORMAT_ABGR8888` format. -/
def MSMFB_VideoInit (env : VideoInitEnv) : VideoInitResult :=
  if ¬ env.openOk then ⟨-1, none, none, []⟩
  else if ¬ env.getFixOk then ⟨-1, none, none, []⟩
  else if ¬ env.getVarOk then ⟨-1, none, none, []⟩
  else if env.fb_fix.type ≠ FB_TYPE_PACKED_PIXELS then
    ⟨-1, some env.fb_var, none, []⟩
  else if env.fb_fix.visual ≠ FB_VISUAL_TRUECOLOR then
    ⟨-1, some env.fb_var, none, []⟩
  else if ¬ env.addBasicDisplayOk then
    ⟨-1, some env.fb_var, none, []⟩
  else
    ⟨0, some env.fb_var,
     some ⟨SDL_PIXELFORMAT_ABGR8888, (env.fb_var.xres : Int),
           (env.fb_var.yres : Int), 60⟩,
     [⟨SDL_PIXELFORMAT_ABGR8888, (env.fb_var.xres : Int),
       (env.fb_var.yres : Int), 60⟩]⟩

/-- An `SDL_Rect` damaged rectangle. -/
structure SDL_Rect where
  x : Int
  y : Int
  w : Int
  h : Int
  deriving DecidableEq, Repr

/-- The clip computation of the rectangle loop in
`MSMFB_UpdateWindowFramebuffer`.  In the source the loop body has no
observable effect (the pixel copy is commented out); this returns the
clipped region the copy would use, or `none` when the rectangle is skipped
by the `continue`. -/
def clipRect (winW winH : Int) (r : SDL_Rect) :
    Option (Int × Int × Int × Int) :=
  if r.w ≤ 0 ∨ r.h ≤ 0 ∨ r.x + r.w ≤ 0 ∨ r.y + r.h ≤ 0 then none
  else
    let x1 := if r.x < 0 then r.x + r.w else r.x
    let w1 := if r.x < 0 then r.w + r.x else r.w
    let y1 := if r.y < 0 then r.y + r.h else r.y
    let h1 := if r.y < 0 then r.h + r.y else r.h
    let w2 := if x1 + w1 > winW then winW - x1 else w1
    let h2 := if y1 + h1 > winH then winH - y1 else h1
    some (x1, y1, w2, h2)

/-- The `msmfb_display_commit`: one `MSMFB_DISPLAY_COMMIT` ioctl; when the ioctl
fails a warning is logged and nothing else happens.  Returns (number of
commit ioctls issued, whether the failure warning was logged). -/
def msmfb_display_commit (commitOk : Bool) : Nat × Bool :=
  (1, ¬ commitOk)

/-- Result of `MSMFB_UpdateWindowFramebuffer`: the C return value, how many
commit ioctls ran, whether a commit-failure warning was logged, and the
clipped regions the loop processed. -/
structure UpdateResult where
  ret : Int
  commits : Nat
  commitWarnLogged : Bool
  processed : List (Option (Int × Int × Int × Int))
  deriving DecidableEq, Repr

/-- The `MSMFB_UpdateWindowFramebuffer`: clip every damaged rectangle, then
unconditionally issue exactly one display-commit ioctl and return 0 whatever
the ioctl's outcome. -/
def MSMFB_UpdateWindowFramebuffer (winW winH : Int) (rects : List SDL_Rect)
    (commitOk : Bool) : UpdateResult :=
  ⟨0, (msmfb_display_commit commitOk).1, (msmfb_display_commit commitOk).2,
   rects.map (clipRect winW winH)⟩

/-- The slice of `struct MSMFB_VideoDriverData` that
`MSMFB_DestroyWindowFramebuffer` touches; `fb_mem = 0` models the NULL
mapped-region pointer. -/
structure MSMFB_VideoDriverData where
  fb_fd : Int
  fb_mem_offset : Int
  smem_len : Nat
  fb_mem : Nat
  deriving DecidableEq, Repr

/-- The `MSMFB_DestroyWindowFramebuffer`: when the mapped-region pointer is
non-NULL, `munmap` it and clear the pointer; otherwise do nothing.  Returns
the new state and how many `munmap` calls were made. -/
def MSMFB_DestroyWindowFramebuffer (d : MSMFB_VideoDriverData) :
    MSMFB_VideoDriverData × Nat :=
  if d.fb_mem ≠ 0 then ({ d with fb_mem := 0 }, 1) else (d, 0)

end MSMFB

namespace X11

/-- A baseline native event; concrete events below override its fields. -/
def xeDefault : XEvent where
  type := XEventType.genericOther
  window := 7
  time := 0
  keycode := 0
  button := 0
  detail := 0
  mode := 0
  x := 0
  y := 0
  width := 0
  height := 0
  messageType := 0
  format := 0
  data0 := 0
  propertyAtom := 0
  requestor := 0
  filtered := false
  text := ""
  netHidden := false
  selnMatch := false

/-- Concrete driver-global data for witnesses. -/
def vdC : VideoData where
  WM_PROTOCOLS := 1
  NET_WM_PING := 2
  WM_DELETE_WINDOW := 3
  NET_WM_STATE := 4
  key_layout := fun k => k + 1
  rootWindow := 99
  syswmEnabled := false
  relativeMode := false
  pending_focus_in_time := 200
  pending_focus_out_time := 200

/-- Concrete window data (handle 7, no pending focus) for witnesses. -/
def wdC : WindowData where
  xwindow := 7
  ic := false
  pending_focus := PendingFocusKind.PENDING_FOCUS_NONE
  pending_focus_time := 0
  last_x := 0
  last_y := 0
  last_width := 0
  last_height := 0
  winHidden := false

/-- Button4 press at time 10. -/
def evPress4 : XEvent :=
  { xeDefault with type := XEventType.buttonPress, button := 4, time := 10 }

/-- Button4 release at time 10. -/
def evRel4 : XEvent :=
  { xeDefault with type := XEventType.buttonRelease, button := 4, time := 10 }

/-- Button1 press at time 10. -/
def evPress1 : XEvent :=
  { xeDefault with type := XEventType.buttonPress, button := 1, time := 10 }

/-- Button1 release at time 10. -/
def evRel1 : XEvent :=
  { xeDefault with type := XEventType.buttonRelease, button := 1, time := 10 }

/-- KeyRelease of keycode 5 at time 100. -/
def evKeyRel : XEvent :=
  { xeDefault with type := XEventType.keyRelease, keycode := 5, time := 100 }

/-- KeyPress of keycode 5 at time 101 (inside the repeat window). -/
def evKeyPress : XEvent :=
  { xeDefault with type := XEventType.keyPress, keycode := 5, time := 101 }

/-- KeyRelease of keycode 5 at time 20. -/
def evKeyRelLate : XEvent :=
  { xeDefault with type := XEventType.keyRelease, keycode := 5, time := 20 }

/-- KeyPress of keycode 5 at the earlier time 10. -/
def evKeyPressEarly : XEvent :=
  { xeDefault with type := XEventType.keyPress, keycode := 5, time := 10 }

/-- KeyRelease of keycode 5 at the largest Uint32 timestamp. -/
def evKeyRelWrap : XEvent :=
  { xeDefault with type := XEventType.keyRelease, keycode := 5,
                   time := 4294967295 }

/-- KeyPress of keycode 5 at timestamp 0 (numerically earlier, but one tick
later modulo 2^32). -/
def evKeyPressWrap : XEvent :=
  { xeDefault with type := XEventType.keyPress, keycode := 5, time := 0 }

/-- ConfigureNotify with a new position and size. -/
def evCfg : XEvent :=
  { xeDefault with type := XEventType.configureNotify,
                   x := 5, y := 6, width := 7, height := 8 }

/-- FocusOut with a non-inferior detail. -/
def evFocusOut : XEvent :=
  { xeDefault with type := XEventType.focusOut, detail := 0 }

/-- FocusIn with a non-inferior detail. -/
def evFocusIn : XEvent :=
  { xeDefault with type := XEventType.focusIn, detail := 0 }

/-- A `_NET_WM_PING` ClientMessage aimed at window 7. -/
def evPing : XEvent :=
  { xeDefault with type := XEventType.clientMessage,
                   messageType := 1, format := 32, data0 := 2 }

end X11

namespace Touch

/-- A mid-gesture tracking state used by the C5 witness. -/
def dTracking : EventTouchData := ⟨3, 4, 5, 9, true, false⟩

/-- A sync marker raw event. -/
def evSync : RawEvent := ⟨RawType.evSyn, 0, 0⟩

/-- A `BTN_TOUCH` release raw event (value 0 asserts the `up` flag). -/
def evBtnTouchUp : RawEvent := ⟨RawType.evKey, BTN_TOUCH, 0⟩

end Touch

namespace MSMFB

/-- A concrete packed-pixel true-color init environment (640×480) for the
C8 witness. -/
def envC : VideoInitEnv :=
  ⟨true, true, true, ⟨4096, 1228800, 2560, 0, 2⟩, ⟨640, 480, 0, 0, 0⟩, true⟩

end MSMFB

namespace X11

theorem u32sub_not_lt_two (p r : Nat) (hp : p < U32MOD) (hr : r < U32MOD)
    (hlt : p < r) (hne : ¬(p = 0 ∧ r = U32MOD - 1)) :
    ¬ u32sub p r < 2 := by
  unfold u32sub U32MOD at *
  rw [Nat.mod_eq_of_lt hr, Nat.mod_eq_of_lt (by omega)]
  omega

theorem toInt32_pos_of_lt (d c : Nat) (hdc : c < d) (hd : d < U32MOD)
    (hsmall : d - c < 2147483648) : 0 < toInt32 (u32sub d c) := by
  have hc : c < U32MOD := lt_trans hdc hd
  unfold u32sub toInt32 U32MOD at *
  rw [Nat.mod_eq_of_lt hc]
  have h1 : (d + 4294967296 - c) % 4294967296 = d - c := by omega
  rw [h1, Nat.mod_eq_of_lt (by omega)]
  rw [if_pos (by omega)]
  omega

theorem keyPress_emits_keydown (vd : VideoData) (now : Nat) (ev : XEvent)
    (rest : List XEvent) (data : WindowData) (kf : Option Nat) (sw : Bool)
    (htype : ev.type = XEventType.keyPress)
    (hfilt : ev.filtered = false)
    (hwin : ev.window = data.xwindow) :
    countOut isKeyDown
      (X11_DispatchEvent vd now ⟨ev :: rest, data, kf, sw⟩).2 = 1 := by
  simp only [X11_DispatchEvent, X11_DispatchSwitch, htype, hfilt, hwin]
  split_ifs <;>
    simp_all [countOut_cons, countOut_nil, countOut_append, isKeyDown]

/-- C1, amended: dispatching a ButtonPress whose next pending native event
is a ButtonRelease with the same button id and an identical timestamp emits
exactly one mouse-wheel event — with tick count +1 for `Button4`, −1 for
`Button5`, and 0 for any other button — and zero mouse-button-down or
mouse-button-up events for that pair, and the trailing release is drained
from the queue so it is never independently dispatched. -/
theorem wheel_pair_single_wheel_no_button (vd : VideoData) (now : Nat)
    (ev rel : XEvent) (rest : List XEvent) (data : WindowData)
    (kf : Option Nat) (sw : Bool)
    (htype : ev.type = XEventType.buttonPress)
    (hfilt : ev.filtered = false)
    (hwin : ev.window = data.xwindow)
    (hrtype : rel.type = XEventType.buttonRelease)
    (hrbutton : rel.button = ev.button)
    (hrtime : rel.time = ev.time) :
    let r := X11_DispatchEvent vd now ⟨ev :: rel :: rest, data, kf, sw⟩
    countOut isWheel r.2 = 1 ∧
    countOut isMouseButton r.2 = 0 ∧
    r.1.pending = rest ∧
    r.2 = (if vd.syswmEnabled then [Output.sysWM] else []) ++
      [Output.sdl (SDLEvent.mouseWheel
        (if ev.button = Button4 then 1
         else if ev.button = Button5 then -1 else 0))] := by
  simp only [X11_DispatchEvent, X11_DispatchSwitch, X11_IsWheelEvent,
    htype, hfilt, hwin, hrtype, hrbutton, hrtime]
  split_ifs <;>
    simp_all [countOut_cons, countOut_nil, isWheel, isMouseButton]

/-- C1 witness: a Button4 press followed by a same-timestamp Button4 release
yields one +1 wheel tick, no button events, and an emptied queue. -/
theorem wheel_pair_single_wheel_no_button_witness :
    let r := X11_DispatchEvent vdC 0 ⟨[evPress4, evRel4], wdC, none, false⟩
    countOut isWheel r.2 = 1 ∧
    countOut isMouseButton r.2 = 0 ∧
    r.1.pending = [] ∧
    r.2 = (if vdC.syswmEnabled then [Output.sysWM] else []) ++
      [Output.sdl (SDLEvent.mouseWheel
        (if evPress4.button = Button4 then 1
         else if evPress4.button = Button5 then -1 else 0))] :=
  wheel_pair_single_wheel_no_button vdC 0 evPress4 evRel4 [] wdC none false
    rfl rfl rfl rfl rfl rfl

/-- C1 counterexample: a Button1 press with a same-timestamp Button1 release
next in the queue is classified as a wheel event whose tick count is 0, not
+1 or −1, so the claim's "signed tick count (+1 for one direction, −1 for
the other)" fails as stated. -/
theorem wheel_pair_nonwheel_button_zero_ticks :
    let outs := (X11_DispatchEvent vdC 0
      ⟨[evPress1, evRel1], wdC, none, false⟩).2
    countOut isWheel outs = 1 ∧
    outs = [Output.sdl (SDLEvent.mouseWheel 0)] ∧
    ¬ (∀ o ∈ outs, isWheel o = true →
        o = Output.sdl (SDLEvent.mouseWheel 1) ∨
        o = Output.sdl (SDLEvent.mouseWheel (-1))) := by
  decide

/-- C2 (confirmed): a KeyRelease whose next pending native event is a
KeyPress of the same keycode within the 2-timestamp-unit repeat window emits
no canonical key-up (indeed no canonical event at all); the release is
suppressed without draining the peeked press, which the next dispatch
iteration processes as a normal key-down. -/
theorem key_repeat_release_suppressed (vd : VideoData) (now now2 : Nat)
    (rel press : XEvent) (rest : List XEvent) (data : WindowData)
    (kf : Option Nat) (sw : Bool)
    (htype : rel.type = XEventType.keyRelease)
    (hfilt : rel.filtered = false)
    (hwin : rel.window = data.xwindow)
    (hptype : press.type = XEventType.keyPress)
    (hpcode : press.keycode = rel.keycode)
    (hptime : u32sub press.time rel.time < 2)
    (hpfilt : press.filtered = false)
    (hpwin : press.window = data.xwindow) :
    let r := X11_DispatchEvent vd now ⟨rel :: press :: rest, data, kf, sw⟩
    countOut isKeyUp r.2 = 0 ∧
    countOut isCanonical r.2 = 0 ∧
    r.1.pending = press :: rest ∧
    countOut isKeyDown (X11_DispatchEvent vd now2 r.1).2 = 1 := by
  have hkr : X11_KeyRepeat (press :: rest) rel = true := by
    simp [X11_KeyRepeat, hptype, hpcode, hptime]
  have hred : X11_DispatchEvent vd now ⟨rel :: press :: rest, data, kf, sw⟩ =
      (⟨press :: rest, data, kf, sw⟩,
       if vd.syswmEnabled then [Output.sysWM] else []) := by
    simp only [X11_DispatchEvent, X11_DispatchSwitch, htype, hfilt, hwin, hkr]
    split_ifs <;> simp_all
  rw [hred]
  refine ⟨?_, ?_, rfl, ?_⟩
  · split_ifs <;> simp [countOut_cons, countOut_nil, isKeyUp]
  · split_ifs <;> simp [countOut_cons, countOut_nil, isCanonical]
  · exact keyPress_emits_keydown vd now2 press rest data kf sw hptype
      hpfilt hpwin

/-- C2 witness: release at time 100, press of the same keycode at time 101:
the release is suppressed, the press stays queued and later emits one
key-down. -/
theorem key_repeat_release_suppressed_witness :
    let r := X11_DispatchEvent vdC 0 ⟨[evKeyRel, evKeyPress], wdC, none, false⟩
    countOut isKeyUp r.2 = 0 ∧
    countOut isCanonical r.2 = 0 ∧
    r.1.pending = [evKeyPress] ∧
    countOut isKeyDown (X11_DispatchEvent vdC 1 r.1).2 = 1 :=
  key_repeat_release_suppressed vdC 0 1 evKeyRel evKeyPress [] wdC none false
    rfl rfl rfl rfl rfl (by decide) rfl rfl

/-- C10, amended: because the repeat check subtracts timestamps as unsigned
32-bit values, a pending same-keycode KeyPress whose timestamp is
numerically earlier than the KeyRelease's never classifies as a repeat —
except in the single wraparound pair (press time 0, release time 2^32 − 1),
where the unsigned difference is 1 — and outside that pair the key-up is
emitted for the release. -/
theorem key_repeat_unsigned_no_earlier_repeat (vd : VideoData) (now : Nat)
    (rel press : XEvent) (rest : List XEvent) (data : WindowData)
    (kf : Option Nat) (sw : Bool)
    (htype : rel.type = XEventType.keyRelease)
    (hfilt : rel.filtered = false)
    (hwin : rel.window = data.xwindow)
    (hptype : press.type = XEventType.keyPress)
    (hpcode : press.keycode = rel.keycode)
    (hpu32 : press.time < U32MOD) (hru32 : rel.time < U32MOD)
    (hearlier : press.time < rel.time)
    (hnowrap : ¬(press.time = 0 ∧ rel.time = U32MOD - 1)) :
    X11_KeyRepeat (press :: rest) rel = false ∧
    countOut isKeyUp
      (X11_DispatchEvent vd now ⟨rel :: press :: rest, data, kf, sw⟩).2 = 1 := by
  have hnr : ¬ u32sub press.time rel.time < 2 :=
    u32sub_not_lt_two press.time rel.time hpu32 hru32 hearlier hnowrap
  have hkr : X11_KeyRepeat (press :: rest) rel = false := by
    simp [X11_KeyRepeat, hnr]
  refine ⟨hkr, ?_⟩
  simp only [X11_DispatchEvent, X11_DispatchSwitch, htype, hfilt, hwin, hkr]
  split_ifs <;>
    simp_all [countOut_cons, countOut_nil, isKeyUp]

/-- C10 witness: press at time 10 pending behind a release at time 20 — no
repeat, and the key-up is emitted. -/
theorem key_repeat_unsigned_no_earlier_repeat_witness :
    X11_KeyRepeat [evKeyPressEarly] evKeyRelLate = false ∧
    countOut isKeyUp
      (X11_DispatchEvent vdC 0
        ⟨[evKeyRelLate, evKeyPressEarly], wdC, none, false⟩).2 = 1 :=
  key_repeat_unsigned_no_earlier_repeat vdC 0 evKeyRelLate evKeyPressEarly []
    wdC none false rfl rfl rfl rfl rfl (by decide) (by decide) (by decide)
    (by decide)

/-- C10 counterexample: press time 0 is numerically earlier than release
time 2^32 − 1, yet the unsigned difference is 1, the pair classifies as a
repeat, and no key-up is emitted — refuting "never classifies as a repeat"
as stated. -/
theorem key_repeat_wraparound_classifies_repeat :
    evKeyPressWrap.time < evKeyRelWrap.time ∧
    X11_KeyRepeat [evKeyPressWrap] evKeyRelWrap = true ∧
    countOut isKeyUp
      (X11_DispatchEvent vdC 0
        ⟨[evKeyRelWrap, evKeyPressWrap], wdC, none, false⟩).2 = 0 := by
  decide

end X11

namespace X11

theorem focusOut_sets_pending (vd : VideoData) (now : Nat) (ev : XEvent)
    (rest : List XEvent) (data : WindowData) (kf : Option Nat) (sw : Bool)
    (htype : ev.type = XEventType.focusOut)
    (hfilt : ev.filtered = false)
    (hwin : ev.window = data.xwindow)
    (hdet : ev.detail ≠ NotifyInferior) :
    X11_DispatchEvent vd now ⟨ev :: rest, data, kf, sw⟩ =
      (⟨rest,
        { data with pending_focus := PendingFocusKind.PENDING_FOCUS_OUT,
                    pending_focus_time :=
                      (now + vd.pending_focus_out_time) % U32MOD },
        kf, sw⟩,
       if vd.syswmEnabled then [Output.sysWM] else []) := by
  simp only [X11_DispatchEvent, X11_DispatchSwitch, htype, hfilt, hwin]
  split_ifs <;> simp_all

theorem focusIn_sets_pending (vd : VideoData) (now : Nat) (ev : XEvent)
    (rest : List XEvent) (data : WindowData) (kf : Option Nat) (sw : Bool)
    (htype : ev.type = XEventType.focusIn)
    (hfilt : ev.filtered = false)
    (hwin : ev.window = data.xwindow)
    (hdet : ev.detail ≠ NotifyInferior) :
    X11_DispatchEvent vd now ⟨ev :: rest, data, kf, sw⟩ =
      (⟨rest,
        { data with pending_focus := PendingFocusKind.PENDING_FOCUS_IN,
                    pending_focus_time :=
                      (now + vd.pending_focus_in_time) % U32MOD },
        kf, sw⟩,
       (if vd.syswmEnabled then [Output.sysWM] else []) ++
       (if data.pending_focus = PendingFocusKind.PENDING_FOCUS_OUT ∧
           some data.xwindow = kf then [Output.resetKeyboard] else [])) := by
  simp only [X11_DispatchEvent, X11_DispatchSwitch, htype, hfilt, hwin]
  split_ifs <;> simp_all

theorem focusCheck_noop (now : Nat) (st : X11State)
    (h : 0 < toInt32 (u32sub st.data.pending_focus_time now)) :
    X11_HandleFocusChanges now st = (st, []) := by
  rw [X11_HandleFocusChanges, if_neg]
  intro ⟨_, hle⟩
  omega

theorem runOps_append (vd : VideoData) (a b : List PumpOp) (st : X11State) :
    runOps vd (a ++ b) st =
      ((runOps vd b (runOps vd a st).1).1,
       (runOps vd a st).2 ++ (runOps vd b (runOps vd a st).1).2) := by
  induction a generalizing st with
  | nil => simp [runOps]
  | cons op ops ih => simp [runOps, ih, List.append_assoc]

theorem runChecks_noop (vd : VideoData) (checks : List Nat) (st : X11State)
    (h : ∀ c ∈ checks, 0 < toInt32 (u32sub st.data.pending_focus_time c)) :
    runOps vd (checks.map PumpOp.focusCheck) st = (st, []) := by
  induction checks with
  | nil => rfl
  | cons c cs ih =>
      rw [List.map_cons, runOps]
      simp only [pumpStep, focusCheck_noop c st (h c (List.mem_cons_self c cs)),
        ih (fun x hx => h x (List.mem_cons_of_mem c hx)), List.nil_append]

/-- C3 (confirmed): the pending focus transition is a single per-window
field, so at most one exists; a non-ignored FocusOut overwrites whatever was
pending and resets the deadline to `now + PENDING_FOCUS_OUT_TIME`; and when
a non-ignored FocusIn for the same window is dispatched before that
deadline — with every intervening focus-change flush running before the
deadline — the pending transition becomes In with the fresh deadline
`t1 + PENDING_FOCUS_IN_TIME` and no FocusOut (`SDL_SetKeyboardFocus(NULL)`)
is ever dispatched. -/
theorem focus_debounce_overwrite_no_focus_out (vd : VideoData)
    (st : X11State) (t0 t1 : Nat) (checks : List Nat) (eOut eIn : XEvent)
    (rest : List XEvent)
    (hpend : st.pending = eOut :: eIn :: rest)
    (hOutT : eOut.type = XEventType.focusOut)
    (hOutF : eOut.filtered = false)
    (hOutW : eOut.window = st.data.xwindow)
    (hOutD : eOut.detail ≠ NotifyInferior)
    (hInT : eIn.type = XEventType.focusIn)
    (hInF : eIn.filtered = false)
    (hInW : eIn.window = st.data.xwindow)
    (hInD : eIn.detail ≠ NotifyInferior)
    (hchk : ∀ c ∈ checks, t0 ≤ c ∧ c < t0 + vd.pending_focus_out_time)
    (hwrap : t0 + vd.pending_focus_out_time < U32MOD)
    (hhalf : vd.pending_focus_out_time < 2147483648) :
    let ops := PumpOp.dispatch t0 ::
      (checks.map PumpOp.focusCheck ++ [PumpOp.dispatch t1])
    let r := runOps vd ops st
    (X11_DispatchEvent vd t0 st).1.data.pending_focus =
        PendingFocusKind.PENDING_FOCUS_OUT ∧
    (X11_DispatchEvent vd t0 st).1.data.pending_focus_time =
        (t0 + vd.pending_focus_out_time) % U32MOD ∧
    r.1.data.pending_focus = PendingFocusKind.PENDING_FOCUS_IN ∧
    r.1.data.pending_focus_time = (t1 + vd.pending_focus_in_time) % U32MOD ∧
    countOut isFocusOutDispatch r.2 = 0 := by
  obtain ⟨pend, data, kf, sw⟩ := st
  simp only at hpend hOutW hInW ⊢
  subst hpend
  have hd1 := focusOut_sets_pending vd t0 eOut (eIn :: rest) data kf sw
    hOutT hOutF hOutW hOutD
  have hmod : (t0 + vd.pending_focus_out_time) % U32MOD =
      t0 + vd.pending_focus_out_time := Nat.mod_eq_of_lt hwrap
  set data1 : WindowData :=
    { data with pending_focus := PendingFocusKind.PENDING_FOCUS_OUT,
                pending_focus_time :=
                  (t0 + vd.pending_focus_out_time) % U32MOD } with hdata1
  have hnoop := runChecks_noop vd checks
    (⟨eIn :: rest, data1, kf, sw⟩ : X11State)
    (by
      intro c hc
      simp only [hdata1, hmod]
      exact toInt32_pos_of_lt _ c (hchk c hc).2 hwrap
        (by have := (hchk c hc).1; omega))
  have hd2 := focusIn_sets_pending vd t1 eIn rest data1 kf sw
    hInT hInF hInW hInD
  have happ := runOps_append vd (checks.map PumpOp.focusCheck)
    [PumpOp.dispatch t1] (⟨eIn :: rest, data1, kf, sw⟩ : X11State)
  rw [runOps]
  simp only [pumpStep, hd1, happ, hnoop]
  rw [runOps]
  simp only [pumpStep, hd2, runOps]
  refine ⟨trivial, trivial, trivial, trivial, ?_⟩
  simp only [countOut_append, countOut_cons, countOut_nil, List.append_nil]
  split_ifs <;> decide

/-- C3 witness: FocusOut at t=0 (deadline 200), flush checks at t=10 and
t=199, FocusIn at t=50: the pending transition ends as In with deadline 250
and no FocusOut is dispatched. -/
theorem focus_debounce_overwrite_no_focus_out_witness :
    let ops := PumpOp.dispatch 0 ::
      ([10, 199].map PumpOp.focusCheck ++ [PumpOp.dispatch 50])
    let r := runOps vdC ops ⟨[evFocusOut, evFocusIn], wdC, none, false⟩
    (X11_DispatchEvent vdC 0
        ⟨[evFocusOut, evFocusIn], wdC, none, false⟩).1.data.pending_focus =
        PendingFocusKind.PENDING_FOCUS_OUT ∧
    (X11_DispatchEvent vdC 0
        ⟨[evFocusOut, evFocusIn], wdC, none, false⟩).1.data.pending_focus_time =
        (0 + vdC.pending_focus_out_time) % U32MOD ∧
    r.1.data.pending_focus = PendingFocusKind.PENDING_FOCUS_IN ∧
    r.1.data.pending_focus_time = (50 + vdC.pending_focus_in_time) % U32MOD ∧
    countOut isFocusOutDispatch r.2 = 0 :=
  focus_debounce_overwrite_no_focus_out vdC
    ⟨[evFocusOut, evFocusIn], wdC, none, false⟩ 0 50 [10, 199]
    evFocusOut evFocusIn [] rfl rfl rfl rfl (by decide) rfl rfl rfl
    (by decide) (by decide) (by decide) (by decide)

/-- C4 (confirmed): on ConfigureNotify a moved event is emitted exactly when
the event's position differs from the last recorded geometry, a resized
event exactly when its size differs (independently), the last recorded
geometry is updated unconditionally, and the only canonical events emitted
are those moved/resized events — so a no-op geometry emits nothing. -/
theorem configure_notify_move_resize_iff_changed (vd : VideoData)
    (now : Nat) (ev : XEvent) (rest : List XEvent) (data : WindowData)
    (kf : Option Nat) (sw : Bool)
    (htype : ev.type = XEventType.configureNotify)
    (hfilt : ev.filtered = false)
    (hwin : ev.window = data.xwindow) :
    let r := X11_DispatchEvent vd now ⟨ev :: rest, data, kf, sw⟩
    countOut isMoved r.2 =
      (if ev.x ≠ data.last_x ∨ ev.y ≠ data.last_y then 1 else 0) ∧
    countOut isResized r.2 =
      (if ev.width ≠ data.last_width ∨ ev.height ≠ data.last_height
       then 1 else 0) ∧
    r.1.data.last_x = ev.x ∧ r.1.data.last_y = ev.y ∧
    r.1.data.last_width = ev.width ∧ r.1.data.last_height = ev.height ∧
    countOut isCanonical r.2 = countOut isMoved r.2 + countOut isResized r.2 := by
  simp only [X11_DispatchEvent, X11_DispatchSwitch, htype, hfilt, hwin]
  split_ifs <;>
    simp_all [countOut_cons, countOut_nil, isMoved, isResized, isCanonical]

/-- C4 witness: a ConfigureNotify moving window 7 to (5,6) and resizing it
to 7×8 from recorded geometry (0,0,0,0) emits one moved and one resized
event and records the new geometry. -/
theorem configure_notify_move_resize_iff_changed_witness :
    let r := X11_DispatchEvent vdC 0 ⟨[evCfg], wdC, none, false⟩
    countOut isMoved r.2 =
      (if evCfg.x ≠ wdC.last_x ∨ evCfg.y ≠ wdC.last_y then 1 else 0) ∧
    countOut isResized r.2 =
      (if evCfg.width ≠ wdC.last_width ∨ evCfg.height ≠ wdC.last_height
       then 1 else 0) ∧
    r.1.data.last_x = evCfg.x ∧ r.1.data.last_y = evCfg.y ∧
    r.1.data.last_width = evCfg.width ∧ r.1.data.last_height = evCfg.height ∧
    countOut isCanonical r.2 = countOut isMoved r.2 + countOut isResized r.2 :=
  configure_notify_move_resize_iff_changed vdC 0 evCfg [] wdC none false
    rfl rfl rfl

/-- C6, amended: a dispatched ClientMessage matching the `_NET_WM_PING`
protocol message is echoed to the root window with its `window` field
rewritten to the root window — otherwise unmodified — and no canonical
event is emitted for it. -/
theorem ping_echoed_to_root_no_canonical (vd : VideoData) (now : Nat)
    (ev : XEvent) (rest : List XEvent) (data : WindowData)
    (kf : Option Nat) (sw : Bool)
    (htype : ev.type = XEventType.clientMessage)
    (hfilt : ev.filtered = false)
    (hwin : ev.window = data.xwindow)
    (hproto : ev.messageType = vd.WM_PROTOCOLS)
    (hfmt : ev.format = 32)
    (hping : ev.data0 = vd.NET_WM_PING) :
    let r := X11_DispatchEvent vd now ⟨ev :: rest, data, kf, sw⟩
    r.2 = (if vd.syswmEnabled then [Output.sysWM] else []) ++
      [Output.sendX vd.rootWindow { ev with window := vd.rootWindow }] ∧
    countOut isCanonical r.2 = 0 := by
  simp only [X11_DispatchEvent, X11_DispatchSwitch, htype, hfilt, hwin,
    hproto, hfmt, hping]
  split_ifs <;>
    simp_all [countOut_cons, countOut_nil, isCanonical]

/-- C6 witness: the concrete ping aimed at window 7 is echoed to root window
99 and yields no canonical event. -/
theorem ping_echoed_to_root_no_canonical_witness :
    let r := X11_DispatchEvent vdC 0 ⟨[evPing], wdC, none, false⟩
    r.2 = (if vdC.syswmEnabled then [Output.sysWM] else []) ++
      [Output.sendX vdC.rootWindow { evPing with window := vdC.rootWindow }] ∧
    countOut isCanonical r.2 = 0 :=
  ping_echoed_to_root_no_canonical vdC 0 evPing [] wdC none false
    rfl rfl rfl rfl rfl rfl

/-- C6 counterexample: the echoed event is not the received event unmodified
— its `window` field is rewritten from 7 to the root window 99 before the
send — refuting "echoed ... unmodified" as stated. -/
theorem ping_echo_window_field_modified :
    (X11_DispatchEvent vdC 0 ⟨[evPing], wdC, none, false⟩).2 =
      [Output.sendX 99 { evPing with window := 99 }] ∧
    { evPing with window := 99 } ≠ evPing ∧
    evPing.window = 7 := by
  decide

end X11

namespace Touch

/-- C5, amended: each sync marker commits exactly one canonical touch event
— finger-down when the `down` flag was clear, finger-motion when `down` is
set and `up` clear, finger-up (with a full field reset) when both are set —
but the `down` and `up` flags can be simultaneously asserted between an
up-marking raw event and the sync that commits the finger-up. -/
theorem sync_commits_exactly_one (d : EventTouchData) (ev : RawEvent)
    (h : ev.type = RawType.evSyn) :
    (processRawEvent d ev).2 =
      [if d.down = false then
         TouchOut.fingerDown true d.finger d.x d.y d.pressure
       else if d.up = false then
         TouchOut.touchMotion d.finger d.x d.y d.pressure
       else TouchOut.fingerDown false d.finger d.x d.y d.pressure] ∧
    (processRawEvent d ev).2.length = 1 ∧
    (processRawEvent d ev).1 =
      (if d.down = false then { d with down := true }
       else if d.up = false then d
       else touchReset) := by
  simp only [processRawEvent, h, touchReset]
  split_ifs <;> simp_all

/-- C5 witness: from a mid-gesture tracking state a sync marker commits
exactly one finger-motion event and leaves the state unchanged. -/
theorem sync_commits_exactly_one_witness :
    (processRawEvent dTracking evSync).2 =
      [if dTracking.down = false then
         TouchOut.fingerDown true dTracking.finger dTracking.x dTracking.y
           dTracking.pressure
       else if dTracking.up = false then
         TouchOut.touchMotion dTracking.finger dTracking.x dTracking.y
           dTracking.pressure
       else TouchOut.fingerDown false dTracking.finger dTracking.x dTracking.y
         dTracking.pressure] ∧
    (processRawEvent dTracking evSync).2.length = 1 ∧
    (processRawEvent dTracking evSync).1 =
      (if dTracking.down = false then { dTracking with down := true }
       else if dTracking.up = false then dTracking
       else touchReset) :=
  sync_commits_exactly_one dTracking evSync rfl

/-- C5 counterexample: starting from the reset state, a sync (finger-down)
followed by a `BTN_TOUCH` release leaves both the `down` and the `up` flag
asserted at once, refuting "never simultaneously asserted" as stated. -/
theorem down_up_simultaneously_asserted :
    (processRawStream touchReset [evSync, evBtnTouchUp]).1.down = true ∧
    (processRawStream touchReset [evSync, evBtnTouchUp]).1.up = true := by
  decide

end Touch

namespace MSMFB

/-- C7 (confirmed): `MSMFB_UpdateWindowFramebuffer` issues exactly one
display-commit ioctl unconditionally — whatever the rectangle list, empty
or fully clipped included — and returns success even when the commit fails,
in which case only a warning is logged. -/
theorem update_commits_once_returns_success (winW winH : Int)
    (rects : List SDL_Rect) (commitOk : Bool) :
    (MSMFB_UpdateWindowFramebuffer winW winH rects commitOk).commits = 1 ∧
    (MSMFB_UpdateWindowFramebuffer winW winH rects commitOk).ret = 0 ∧
    (MSMFB_UpdateWindowFramebuffer winW winH rects commitOk).commitWarnLogged
      = !commitOk := by
  cases commitOk <;>
    simp [MSMFB_UpdateWindowFramebuffer, msmfb_display_commit]

/-- C8 (confirmed): when the device opens and both queries succeed,
initialization returns −1 with nothing published unless the queried layout
is packed-pixel true-color (and the basic display registers), and on
success it publishes exactly one display mode whose width and height come
from the queried variable info, at a fixed 60 Hz refresh. -/
theorem videoinit_truecolor_gate_single_mode (env : VideoInitEnv)
    (hopen : env.openOk = true) (hfix : env.getFixOk = true)
    (hvar : env.getVarOk = true) :
    let r := MSMFB_VideoInit env
    let ok := env.fb_fix.type = FB_TYPE_PACKED_PIXELS ∧
              env.fb_fix.visual = FB_VISUAL_TRUECOLOR ∧
              env.addBasicDisplayOk = true
    let mode : SDL_DisplayMode :=
      ⟨SDL_PIXELFORMAT_ABGR8888, (env.fb_var.xres : Int),
       (env.fb_var.yres : Int), 60⟩
    r.ret = (if ok then 0 else -1) ∧
    r.addedModes = (if ok then [mode] else []) ∧
    r.basicDisplay = (if ok then some mode else none) := by
  simp only [MSMFB_VideoInit, hopen, hfix, hvar]
  split_ifs <;> simp_all

/-- C8 witness: the concrete packed-pixel true-color 640×480 environment
initializes successfully and publishes the single 640×480@60 mode. -/
theorem videoinit_truecolor_gate_single_mode_witness :
    let r := MSMFB_VideoInit envC
    let ok := envC.fb_fix.type = FB_TYPE_PACKED_PIXELS ∧
              envC.fb_fix.visual = FB_VISUAL_TRUECOLOR ∧
              envC.addBasicDisplayOk = true
    let mode : SDL_DisplayMode :=
      ⟨SDL_PIXELFORMAT_ABGR8888, (envC.fb_var.xres : Int),
       (envC.fb_var.yres : Int), 60⟩
    r.ret = (if ok then 0 else -1) ∧
    r.addedModes = (if ok then [mode] else []) ∧
    r.basicDisplay = (if ok then some mode else none) :=
  videoinit_truecolor_gate_single_mode envC rfl rfl rfl

/-- C9 (confirmed): `MSMFB_DestroyWindowFramebuffer` is idempotent — the
first call unmaps at most once and clears the mapped-region pointer, and a
second call in succession changes nothing and performs zero `munmap`
calls. -/
theorem destroy_framebuffer_idempotent (d : MSMFB_VideoDriverData) :
    (MSMFB_DestroyWindowFramebuffer
      (MSMFB_DestroyWindowFramebuffer d).1).2 = 0 ∧
    (MSMFB_DestroyWindowFramebuffer
      (MSMFB_DestroyWindowFramebuffer d).1).1 =
      (MSMFB_DestroyWindowFramebuffer d).1 ∧
    (MSMFB_DestroyWindowFramebuffer d).2 ≤ 1 := by
  by_cases h : d.fb_mem ≠ 0 <;>
    simp [MSMFB_DestroyWindowFramebuffer, h]

end MSMFB
